import Mathlib

/-!
Verification of the LLM response-time test tool (client.py, metrics.py, main.py).

The development shallowly embeds the request/response engine and the metrics
engine: pure Python functions become Lean functions over a small JSON value
model, machine floats become exact rationals, and the HTTP transport is
abstracted as an explicit outcome value (status code plus decoded body, or a
transport-level error).  Token counts travel as `Int` (CPython integers),
elapsed times as `ℚ` milliseconds.
-/

namespace LLMTest

/-- Minimal model of a decoded JSON value (the result of `json.loads` /
`response.json()`).  Numbers are restricted to integers: the only numeric
fields the engine reads are token counts, which the wire contracts of spec §6
declare integral. -/
inductive JValue where
  | null
  | bool (b : Bool)
  | num (n : Int)
  | str (s : String)
  | arr (items : List JValue)
  | obj (fields : List (String × JValue))

/-- Python truthiness of a JSON value: `None`, `False`, `0`, `""`, `[]` and
`{}` are falsy, everything else is truthy. -/
def jTruthy : JValue → Bool
  | .null => false
  | .bool b => b
  | .num n => n != 0
  | .str s => s != ""
  | .arr items => !items.isEmpty
  | .obj fields => !fields.isEmpty

/-- First binding of a key in a decoded JSON object (Python dicts hold each
key at most once, so first-match lookup is exact). -/
def lookupField : List (String × JValue) → String → Option JValue
  | [], _ => none
  | (k, v) :: rest, key => if k == key then some v else lookupField rest key

/-- Model of `d.get(key)` on a decoded JSON object: `none` when the key is
absent or the receiver is not an object. -/
def jGet : JValue → String → Option JValue
  | .obj fields, key => lookupField fields key
  | _, _ => none

/-- Model of `d.get(key, default)` restricted to string values.  A present
value of a non-string type lies outside the wire contracts of spec §6 and is
modeled as the default; CPython would carry the foreign value along and fail
later inside the same call. -/
def jStrD (j : JValue) (key : String) (dflt : String) : String :=
  match jGet j key with
  | some (.str s) => s
  | some _ => dflt
  | none => dflt

/-- Model of `d.get(key, default)` for integer token counts over an already
extracted field list.  A present non-integer value lies outside the wire
contracts of spec §6 and is modeled as the default. -/
def jIntFieldsD (fields : List (String × JValue)) (key : String) (dflt : Int) : Int :=
  match lookupField fields key with
  | some (.num n) => n
  | some _ => dflt
  | none => dflt

/-- Model of `d.get(key, {})` followed by use of the result as a dict: yields
the field list when the stored value is an object, `[]` when the key is
absent.  A present non-object value makes CPython raise when the result is
next used as a dict; in the streaming loop (the only user of this helper)
that exception and the modeled skip both end in the call's blanket-handler
failure, so the two are observationally equal at the returned Result. -/
def objFieldsD : Option JValue → List (String × JValue)
  | some (.obj fields) => fields
  | _ => []

/-- Viewing a JSON value as an object, as CPython's attribute access does:
anything else raises AttributeError. -/
def asObjFields : JValue → Except String (List (String × JValue))
  | .obj fields => .ok fields
  | _ => .error "AttributeError: value is not a dict"

/- ===================== metrics.py ===================== -/

/-- metrics.TimingMetrics.  The dataclass declares exactly these two fields;
in particular there is no ttfr field, which matters for the streaming call
(see `call_api_stream`). -/
structure TimingMetrics where
  total_latency_ms : ℚ
  ttft_ms : Option ℚ := none
deriving DecidableEq

/-- metrics.TokenMetrics. -/
structure TokenMetrics where
  prompt_tokens : Int := 0
  completion_tokens : Int := 0
  total_tokens : Int := 0
deriving DecidableEq

/-- metrics.TestResult: one prompt execution as recorded by the batch runner. -/
structure TestResult where
  prompt : String
  status : String
  error_message : Option String := none
  response_content : Option String := none
  timing : Option TimingMetrics := none
  tokens : Option TokenMetrics := none
  tps : Option ℚ := none

/-- metrics.AggregatedStats with its all-zero defaults. -/
structure AggregatedStats where
  count : Nat := 0
  avg : ℚ := 0
  std : ℚ := 0
  min_val : ℚ := 0
  max_val : ℚ := 0

/-- metrics.BatchSummary. -/
structure BatchSummary where
  total_requests : Nat := 0
  successful : Nat := 0
  failed : Nat := 0
  latency_stats : Option AggregatedStats := none
  ttft_stats : Option AggregatedStats := none
  output_tokens_stats : Option AggregatedStats := none
  tps_stats : Option AggregatedStats := none

/-- metrics.calculate_tps: tokens per second, guarded against a non-positive
latency. -/
def calculate_tps (tokens : Int) (latency_ms : ℚ) : ℚ :=
  if latency_ms ≤ 0 then 0 else (tokens : ℚ) / (latency_ms / 1000)

/-- Python's `round(x, 2)`.  CPython rounds half to even on binary doubles;
the model uses Mathlib's `round` (half away from the floor side) at two
decimal places.  No claim distinguishes the two tie-breaking rules. -/
def round2 (q : ℚ) : ℚ := ((round (q * 100) : ℤ) : ℚ) / 100

/-- Python's `min(values)` on a list of numbers (0 on the empty list, which
the source never reaches: `aggregate_values` guards emptiness first). -/
def pyMin : List ℚ → ℚ
  | [] => 0
  | v :: vs => vs.foldl min v

/-- Python's `max(values)` on a list of numbers. -/
def pyMax : List ℚ → ℚ
  | [] => 0
  | v :: vs => vs.foldl max v

/-- statistics.mean: the exact arithmetic mean. -/
def listMean (values : List ℚ) : ℚ := values.sum / (values.length : ℚ)

/-- Sample variance, the quantity under statistics.stdev's square root. -/
def sampleVariance (values : List ℚ) : ℚ :=
  (values.map fun x => (x - listMean values) ^ 2).sum / ((values.length - 1 : ℕ) : ℚ)

/-- statistics.stdev: the sample standard deviation.  The floating-point
square root has no exact rational counterpart; it is modeled by `Rat.sqrt`.
No claim depends on the numeric value of the square root itself, only on the
`count ≤ 1` branch (which bypasses it) and on permutation invariance (which
holds for any function of the variance). -/
def sampleStdev (values : List ℚ) : ℚ := Rat.sqrt (sampleVariance values)

/-- metrics.aggregate_values. -/
def aggregate_values (values : List ℚ) : AggregatedStats :=
  if values.isEmpty then {}
  else
    { count := values.length
      avg := round2 (listMean values)
      std := round2 (if 1 < values.length then sampleStdev values else 0)
      min_val := round2 (pyMin values)
      max_val := round2 (pyMax values) }

/-- The successful partition computed by metrics.summarize_results. -/
def successfulResults (results : List TestResult) : List TestResult :=
  results.filter fun r => r.status == "success"

/-- Latency sample set of metrics.summarize_results: total latency of every
successful result that carries a timing record. -/
def latencySamples (results : List TestResult) : List ℚ :=
  (successfulResults results).filterMap fun r => r.timing.map fun t => t.total_latency_ms

/-- TTFT sample set of metrics.summarize_results: ttft of every successful
result whose timing record has one. -/
def ttftSamples (results : List TestResult) : List ℚ :=
  (successfulResults results).filterMap fun r => r.timing.bind fun t => t.ttft_ms

/-- Output-token sample set of metrics.summarize_results. -/
def outputTokenSamples (results : List TestResult) : List ℚ :=
  (successfulResults results).filterMap fun r =>
    r.tokens.map fun t => (t.completion_tokens : ℚ)

/-- TPS sample set of metrics.summarize_results: per-result tps where present. -/
def tpsSamples (results : List TestResult) : List ℚ :=
  (successfulResults results).filterMap fun r => r.tps

/-- The `aggregate_values(xs) if xs else None` pattern of summarize_results. -/
def maybeAggregate (values : List ℚ) : Option AggregatedStats :=
  if values.isEmpty then none else some (aggregate_values values)

/-- metrics.summarize_results. -/
def summarize_results (results : List TestResult) : BatchSummary :=
  { total_requests := results.length
    successful := (successfulResults results).length
    failed := results.length - (successfulResults results).length
    latency_stats := maybeAggregate (latencySamples results)
    ttft_stats := maybeAggregate (ttftSamples results)
    output_tokens_stats := maybeAggregate (outputTokenSamples results)
    tps_stats := maybeAggregate (tpsSamples results) }

/- ===================== client.py ===================== -/

/-- client.LLMResponse with its `None` defaults. -/
structure LLMResponse where
  success : Bool
  content : Option String := none
  timing : Option TimingMetrics := none
  tokens : Option TokenMetrics := none
  error_message : Option String := none
  raw_response : Option JValue := none

/-- The `LLMResponse(success=False, error_message=...)` pattern used on every
failure path of client.py. -/
def mkFailure (msg : String) : LLMResponse :=
  { success := false, error_message := some msg }

/-- client.LLMClient configuration as recorded by `__init__`:
`is_responses_api` is the derived wire-format flag, computed once at
construction and stored. -/
structure LLMClient where
  endpoint : String
  api_key : String
  model : String
  timeout : ℚ
  reasoning_effort : Option String := none
  max_tokens : Option Int := none
  no_cache : Bool := false
  is_responses_api : Bool

/-- Structural model of Python's substring operator `pat in s`:
`listStartsWith pat l` holds when `pat` is a leading run of `l`. -/
def listStartsWith : List Char → List Char → Bool
  | [], _ => true
  | _ :: _, [] => false
  | p :: ps, c :: cs => p == c && listStartsWith ps cs

/-- Structural model of Python's substring operator `pat in s` over character
lists. -/
def listContainsSub (pat : List Char) : List Char → Bool
  | [] => pat.isEmpty
  | c :: cs => listStartsWith pat (c :: cs) || listContainsSub pat cs

/-- Python's `pat in s` on strings. -/
def strContains (s pat : String) : Bool := listContainsSub pat.data s.data

/-- Python's `s.rstrip('/')`. -/
def rstripSlash (s : String) : String :=
  ⟨(s.data.reverse.dropWhile fun c => c == '/').reverse⟩

/-- client.LLMClient.__init__: stores the configuration, strips trailing
slashes from the endpoint, and detects the Responses API once, from a
substring test on the raw endpoint argument. -/
def mkLLMClient (endpoint api_key model : String) (timeout : ℚ)
    (reasoning_effort : Option String) (max_tokens : Option Int)
    (no_cache : Bool) : LLMClient :=
  { endpoint := rstripSlash endpoint
    api_key := api_key
    model := model
    timeout := timeout
    reasoning_effort := reasoning_effort
    max_tokens := max_tokens
    no_cache := no_cache
    is_responses_api := strContains endpoint "/responses" }

/-- client.LLMClient._build_request_body.  The optional fields are added only
when their configured value is Python-truthy (so an empty effort string, a
zero token cap, or a false cache flag is omitted), exactly as the source's
`if self.reasoning_effort:` style guards do. -/
def build_request_body (c : LLMClient) (prompt : String) (stream : Bool) : JValue :=
  if c.is_responses_api then
    .obj ([("model", .str c.model), ("input", .str prompt), ("stream", .bool stream)]
      ++ (match c.reasoning_effort with
          | some e => if e ≠ "" then [("reasoning", .obj [("effort", .str e)])] else []
          | none => [])
      ++ (match c.max_tokens with
          | some m => if m ≠ 0 then [("max_output_tokens", .num m)] else []
          | none => [])
      ++ (if c.no_cache then [("store", .bool false)] else []))
  else
    .obj ([("model", .str c.model),
           ("messages", .arr [.obj [("role", .str "user"), ("content", .str prompt)]]),
           ("stream", .bool stream)]
      ++ (match c.reasoning_effort with
          | some e => if e ≠ "" then [("reasoning_effort", .str e)] else []
          | none => [])
      ++ (match c.max_tokens with
          | some m => if m ≠ 0 then [("max_tokens", .num m)] else []
          | none => []))

/-- The inner loop of the responses-format branch of
client.LLMClient._extract_content_from_response: the `output_text` texts of
one message item's content list, in order.  A present non-string `text`
value is reported as the TypeError that CPython's final `"".join` raises
(CPython defers that error to the join; the model reports it at the offending
item — both turn into the same blanket-handler failure of `call_api`). -/
def textsOfMessageContents : List JValue → Except String (List String)
  | [] => .ok []
  | c :: rest =>
    match asObjFields c with
    | .error e => .error e
    | .ok cf =>
      match textsOfMessageContents rest with
      | .error e => .error e
      | .ok tailTexts =>
        match lookupField cf "type" with
        | some (.str t) =>
          if t = "output_text" then
            match lookupField cf "text" with
            | some (.str s) => .ok (s :: tailTexts)
            | none => .ok ("" :: tailTexts)
            | some _ => .error "TypeError: sequence item is not a str"
          else .ok tailTexts
        | _ => .ok tailTexts

/-- The outer loop of the responses-format branch of
client.LLMClient._extract_content_from_response: texts of every item of type
`"message"`. -/
def extractOutputTexts : List JValue → Except String (List String)
  | [] => .ok []
  | item :: rest =>
    match asObjFields item with
    | .error e => .error e
    | .ok fields =>
      match
        (match lookupField fields "type" with
         | some (.str t) =>
           if t = "message" then
             match lookupField fields "content" with
             | some (.arr contents) => textsOfMessageContents contents
             | none => .ok []
             | some _ => .error "TypeError: contents are not iterable as dicts"
           else .ok []
         | _ => .ok ([] : List String))
      with
      | .error e => .error e
      | .ok headTexts =>
        match extractOutputTexts rest with
        | .error e => .error e
        | .ok tailTexts => .ok (headTexts ++ tailTexts)

/-- client.LLMClient._extract_content_from_response.  A chat-completions
`content` value that is present but not a string lies outside the wire
contract of spec §6 and is modeled as the empty string. -/
def extract_content_from_response (isResp : Bool) (data : JValue) : Except String String :=
  if isResp then
    match asObjFields data with
    | .error e => .error e
    | .ok fields =>
      match lookupField fields "output" with
      | some (.arr items) =>
        match extractOutputTexts items with
        | .error e => .error e
        | .ok parts => .ok (String.join parts)
      | none => .ok ""
      | some _ => .error "TypeError: output is not iterable as dicts"
  else
    match asObjFields data with
    | .error e => .error e
    | .ok fields =>
      match lookupField fields "choices" with
      | some (.arr (c0 :: _)) =>
        (match asObjFields c0 with
         | .error e => .error e
         | .ok c0f =>
           match asObjFields ((lookupField c0f "message").getD (.obj [])) with
           | .error e => .error e
           | .ok mf =>
             match lookupField mf "content" with
             | some (.str s) => .ok s
             | some _ => .ok ""
             | none => .ok "")
      | some (.arr []) => .ok ""
      | none => .ok ""
      | some j => if jTruthy j then .error "TypeError: choices is not subscriptable" else .ok ""

/-- client.LLMClient._extract_tokens_from_response: reads the format-specific
usage keys, defaulting every absent count to 0 and taking the server's
total_tokens verbatim. -/
def extract_tokens_from_response (isResp : Bool) (data : JValue) :
    Except String TokenMetrics :=
  match asObjFields data with
  | .error e => .error e
  | .ok fields =>
    match asObjFields ((lookupField fields "usage").getD (.obj [])) with
    | .error e => .error e
    | .ok uf =>
      if isResp then
        .ok { prompt_tokens := jIntFieldsD uf "input_tokens" 0
              completion_tokens := jIntFieldsD uf "output_tokens" 0
              total_tokens := jIntFieldsD uf "total_tokens" 0 }
      else
        .ok { prompt_tokens := jIntFieldsD uf "prompt_tokens" 0
              completion_tokens := jIntFieldsD uf "completion_tokens" 0
              total_tokens := jIntFieldsD uf "total_tokens" 0 }

/-- Lines 206-209 of client.call_api: when the server-reported completion
count is zero and the accumulated content is non-empty, recompute the
completion count with the fallback tokenizer `tok` and the total as
prompt + completion.  The second component records whether the tokenizer was
invoked. -/
def applyFallbackTokens (tok : String → String → Int) (model content : String)
    (tokens : TokenMetrics) : TokenMetrics × Bool :=
  if tokens.completion_tokens == 0 && content != "" then
    ({ prompt_tokens := tokens.prompt_tokens
       completion_tokens := tok content model
       total_tokens := tokens.prompt_tokens + tok content model }, true)
  else (tokens, false)

/-- Outcome of the buffered HTTP POST, as surfaced by the httpx transport:
either a transport-level error (each mapped by client.call_api's `except`
arms) or a status code with the result of decoding the body as JSON. -/
inductive HttpOutcome where
  | timeout
  | connectError (msg : String)
  | unexpectedError (msg : String)
  | httpResponse (status : Nat) (body : Except String JValue)

/-- client.LLMClient.call_api over an abstract transport outcome.  `tok` is
the fallback tokenizer (metrics.count_tokens_tiktoken), `latency_ms` the
elapsed wall-clock time of the request.  Every branch returns a Result; the
`unexpectedError` arm and the extraction-error arms model the blanket
`except Exception` handler. -/
def call_api (tok : String → String → Int) (c : LLMClient) (outcome : HttpOutcome)
    (latency_ms : ℚ) : LLMResponse :=
  match outcome with
  | .timeout => mkFailure ("请求超时：超过 " ++ toString c.timeout ++ " 秒")
  | .connectError msg => mkFailure ("连接失败：" ++ msg)
  | .unexpectedError msg => mkFailure ("未知错误：" ++ msg)
  | .httpResponse status body =>
    if status = 401 then mkFailure "认证失败：API 密钥无效或已过期"
    else if status = 403 then mkFailure "权限不足：无法访问该模型或资源"
    else if status = 429 then mkFailure "请求过于频繁：已触发速率限制"
    else if 500 ≤ status then mkFailure ("服务器错误：" ++ toString status)
    else if status ≠ 200 then mkFailure ("请求失败：HTTP " ++ toString status)
    else
      match body with
      | .error e => mkFailure ("JSON 解析失败：" ++ e)
      | .ok data =>
        match extract_content_from_response c.is_responses_api data with
        | .error e => mkFailure ("未知错误：" ++ e)
        | .ok content =>
          match extract_tokens_from_response c.is_responses_api data with
          | .error e => mkFailure ("未知错误：" ++ e)
          | .ok tokens0 =>
            { success := true
              content := some content
              timing := some { total_latency_ms := round2 latency_ms }
              tokens := some (applyFallbackTokens tok c.model content tokens0).1
              raw_response := some data }

/-- One line of the SSE stream, at the level the per-line dispatch of
client.call_api_stream distinguishes: a falsy line, a line without the
`data: ` marker, the `[DONE]` sentinel, a data line whose payload fails JSON
decoding, or a decoded JSON event. -/
inductive RawLine where
  | empty
  | noData (s : String)
  | done
  | malformed
  | event (j : JValue)

/-- The mutable loop state of client.call_api_stream. -/
structure StreamState where
  ttft : Option ℚ := none
  ttfr : Option ℚ := none
  chunks : List String := []
  completion_tokens : Int := 0

/-- Model of the streaming-loop expression
`chunk_data.get("delta") or chunk_data.get("text") or ""` followed by the
guard `isinstance(x, str) and x`: the first Python-truthy lookup result when
it is a (necessarily non-empty) string. -/
def pyOrStr (a b : Option JValue) : Option String :=
  let v : JValue :=
    match a with
    | some va =>
      if jTruthy va then va
      else
        match b with
        | some vb => if jTruthy vb then vb else .str ""
        | none => .str ""
    | none =>
      match b with
      | some vb => if jTruthy vb then vb else .str ""
      | none => .str ""
  match v with
  | .str s => if s ≠ "" then some s else none
  | _ => none

/-- Lines 306-313 of client.py: the responses-format content-delta branch -
append the non-empty fragment and record ttft on the first one. -/
def respContentStep (st : StreamState) (j : JValue) (t : ℚ) : StreamState :=
  let deltaText := jStrD j "delta" ""
  if deltaText ≠ "" then
    { st with
      ttft := if st.ttft.isNone then some t else st.ttft
      chunks := st.chunks ++ [deltaText] }
  else st

/-- Lines 314-319 of client.py: the responses-format reasoning-delta branch -
record ttfr on the first non-empty string fragment. -/
def respReasoningStep (st : StreamState) (j : JValue) (t : ℚ) : StreamState :=
  match pyOrStr (jGet j "delta") (jGet j "text") with
  | some _ => if st.ttfr.isNone then { st with ttfr := some t } else st
  | none => st

/-- Lines 320-325 of client.py: the responses-format completion event -
capture usage.output_tokens when the usage object is truthy. -/
def respCompletedStep (st : StreamState) (j : JValue) : StreamState :=
  let respFields := objFieldsD (jGet j "response")
  match (lookupField respFields "usage").getD (.obj []) with
  | .obj (f :: fs) =>
    { st with completion_tokens := jIntFieldsD (f :: fs) "output_tokens" 0 }
  | _ => st

/-- The `choices[0].get("delta", {}).get("content", "")` expression of the
chat-format streaming branch, restricted to string values as in `jStrD`. -/
def deltaContentOf (c0 : JValue) : String :=
  match lookupField (objFieldsD (jGet c0 "delta")) "content" with
  | some (.str s) => s
  | _ => ""

/-- Lines 327-335 of client.py: the chat-format content-delta handling -
when the choices list is truthy, append the non-empty fragment and record
ttft on the first one. -/
def chatContentStep (st : StreamState) (j : JValue) (t : ℚ) : StreamState :=
  match jGet j "choices" with
  | some (.arr (c0 :: _)) =>
    if deltaContentOf c0 ≠ "" then
      { st with
        ttft := if st.ttft.isNone then some t else st.ttft
        chunks := st.chunks ++ [deltaContentOf c0] }
    else st
  | _ => st

/-- Lines 337-340 of client.py: the chat-format usage update - capture
usage.completion_tokens when a truthy usage object is present. -/
def chatUsageStep (st : StreamState) (j : JValue) : StreamState :=
  match jGet j "usage" with
  | some (.obj (f :: fs)) =>
    { st with completion_tokens := jIntFieldsD (f :: fs) "completion_tokens" 0 }
  | _ => st

/-- The per-event body of client.call_api_stream's loop (lines 301-343):
format-specific extraction of content deltas (recording ttft on the first
non-empty fragment), reasoning deltas (recording ttfr once), and usage
updates.  `t` is the elapsed time, in ms, at which the event is consumed. -/
def processEvent (isResp : Bool) (st : StreamState) (j : JValue) (t : ℚ) : StreamState :=
  if isResp then
    let chunkType := jStrD j "type" ""
    if chunkType = "response.output_text.delta" then respContentStep st j t
    else if chunkType = "response.reasoning_text.delta" ∨
        chunkType = "response.reasoning.delta" then respReasoningStep st j t
    else if chunkType = "response.completed" then respCompletedStep st j
    else st
  else chatUsageStep (chatContentStep st j t) j

/-- The content fragment (possibly empty) that one decoded streaming event
carries under the given wire format: the two content-delta readings of
`processEvent`. -/
def eventContentFragment (isResp : Bool) (j : JValue) : String :=
  if isResp then
    if jStrD j "type" "" = "response.output_text.delta" then jStrD j "delta" "" else ""
  else
    match jGet j "choices" with
    | some (.arr (c0 :: _)) => deltaContentOf c0
    | _ => ""

/-- The SSE line loop of client.call_api_stream (lines 290-343): skips falsy
lines, lines without the `data: ` marker and undecodable payloads, stops at
the `[DONE]` sentinel, and folds every decoded event through `processEvent`. -/
def processStreamLines (isResp : Bool) (st : StreamState) : List (RawLine × ℚ) → StreamState
  | [] => st
  | (line, t) :: rest =>
    match line with
    | .empty => processStreamLines isResp st rest
    | .noData _ => processStreamLines isResp st rest
    | .done => st
    | .malformed => processStreamLines isResp st rest
    | .event j => processStreamLines isResp (processEvent isResp st j t) rest

/-- The elapsed time at which the first non-empty content fragment of the
stream is consumed, looking only at events before the [DONE] sentinel. -/
def firstContentTime (isResp : Bool) : List (RawLine × ℚ) → Option ℚ
  | [] => none
  | (.done, _) :: _ => none
  | (.event j, t) :: rest =>
    if eventContentFragment isResp j ≠ "" then some t else firstContentTime isResp rest
  | _ :: rest => firstContentTime isResp rest

/-- Lines 350-352 of client.call_api_stream: the fallback tokenization of the
accumulated stream content.  The second component records whether the
tokenizer was invoked. -/
def streamFallbackTokens (tok : String → String → Int) (model content : String)
    (completion : Int) : Int × Bool :=
  if completion == 0 && content != "" then (tok content model, true)
  else (completion, false)

/-- client.call_api_stream line 357 builds
`TimingMetrics(total_latency_ms=..., ttft_ms=..., ttfr_ms=...)`, but
metrics.TimingMetrics declares only total_latency_ms and ttft_ms, so the
dataclass constructor raises TypeError and the blanket `except Exception`
handler converts the success path into this generic failure. -/
def ttfrKeywordErrorMessage : String :=
  "未知错误：TimingMetrics.__init__() got an unexpected keyword argument ttfr_ms"

/-- The record the streaming success path intends to build on lines 357-361
of client.py, with Python truthiness replacing a ttft or ttfr of exactly 0.0
by None.  The actual TimingMetrics constructor rejects the ttfr_ms keyword,
so this value is never returned by `call_api_stream`. -/
structure AttemptedStreamTiming where
  total_latency_ms : ℚ
  ttft_ms : Option ℚ
  ttfr_ms : Option ℚ

/-- The argument triple of the attempted TimingMetrics construction on lines
357-361 of client.py. -/
def attemptedStreamTiming (total : ℚ) (ttft ttfr : Option ℚ) : AttemptedStreamTiming :=
  { total_latency_ms := round2 total
    ttft_ms :=
      match ttft with
      | some v => if v ≠ 0 then some (round2 v) else none
      | none => none
    ttfr_ms :=
      match ttfr with
      | some v => if v ≠ 0 then some (round2 v) else none
      | none => none }

/-- Outcome of the streaming HTTP POST: a transport-level error or a status
code together with the timed SSE lines the server delivers. -/
inductive StreamOutcome where
  | timeout
  | connectError (msg : String)
  | unexpectedError (msg : String)
  | httpResponse (status : Nat) (lines : List (RawLine × ℚ))

/-- client.LLMClient.call_api_stream over an abstract transport outcome.
After the loop the source computes the joined content and the fallback token
count, then attempts the TimingMetrics construction with the ttfr_ms keyword;
since metrics.TimingMetrics has no such field, CPython raises TypeError and
the blanket `except Exception` arm returns a generic failure, so every run
that consumes the stream ends in `mkFailure ttfrKeywordErrorMessage`. -/
def call_api_stream (tok : String → String → Int) (c : LLMClient)
    (outcome : StreamOutcome) (total_latency_ms : ℚ) : LLMResponse :=
  match outcome with
  | .timeout => mkFailure ("请求超时：超过 " ++ toString c.timeout ++ " 秒")
  | .connectError msg => mkFailure ("连接失败：" ++ msg)
  | .unexpectedError msg => mkFailure ("未知错误：" ++ msg)
  | .httpResponse status lines =>
    if status = 401 then mkFailure "认证失败：API 密钥无效或已过期"
    else if status = 403 then mkFailure "权限不足：无法访问该模型或资源"
    else if status = 429 then mkFailure "请求过于频繁：已触发速率限制"
    else if 500 ≤ status then mkFailure ("服务器错误：" ++ toString status)
    else if status ≠ 200 then mkFailure ("请求失败：HTTP " ++ toString status)
    else
      let st := processStreamLines c.is_responses_api {} lines
      let fullContent := String.join st.chunks
      let _completionTokens :=
        (streamFallbackTokens tok c.model fullContent st.completion_tokens).1
      let _attempted :=
        attemptedStreamTiming total_latency_ms st.ttft st.ttfr
      mkFailure ttfrKeywordErrorMessage

/- ===================== main.py ===================== -/

/-- main.run_single_test, lines 137-158, with the HTTP call abstracted as the
already-obtained LLMResponse: on success it derives tps from completion
tokens and total latency when both records are present, and stores a falsy
tps (None or exactly 0.0) as None. -/
def run_single_test (prompt : String) (response : LLMResponse) : TestResult :=
  if response.success then
    let tps : Option ℚ :=
      match response.tokens, response.timing with
      | some tk, some tm => some (calculate_tps tk.completion_tokens tm.total_latency_ms)
      | _, _ => none
    { prompt := prompt
      status := "success"
      response_content := response.content
      timing := response.timing
      tokens := response.tokens
      tps :=
        match tps with
        | some v => if v ≠ 0 then some (round2 v) else none
        | none => none }
  else
    { prompt := prompt
      status := "error"
      error_message := response.error_message }

/- ===================== shared concrete inputs ===================== -/

/-- A concrete stand-in for metrics.count_tokens_tiktoken, used only to
instantiate theorems at concrete inputs (the engine treats the tokenizer as
an opaque deterministic function). -/
def demoTok : String → String → Int :=
  fun text _ => ((text.length + 2) / 3 : Nat)

/-- A client whose endpoint contains the `/responses` segment. -/
def demoRespClient : LLMClient :=
  mkLLMClient "https://example.com/openai/responses" "key" "gpt-test" 120 none none false

/-- A client whose endpoint does not contain the `/responses` segment. -/
def demoChatClient : LLMClient :=
  mkLLMClient "https://api.example.com/v1/chat/completions" "key" "gpt-test" 120 none none false

/-- Whether a decoded response body carries a usage object that supplies all
three counts for the given wire format. -/
def usageSupplies (isResp : Bool) (data : JValue) (p cc t : Int) : Prop :=
  ∃ ufs, jGet data "usage" = some (.obj ufs) ∧
    lookupField ufs (if isResp then "input_tokens" else "prompt_tokens") = some (.num p) ∧
    lookupField ufs (if isResp then "output_tokens" else "completion_tokens") = some (.num cc) ∧
    lookupField ufs "total_tokens" = some (.num t)

/-- Characters after the `://` scheme marker of an absolute URL (the whole
string when no marker occurs). -/
def afterSchemeMarker : List Char → List Char
  | [] => []
  | ':' :: '/' :: '/' :: rest => rest
  | _ :: rest => afterSchemeMarker rest

/-- The path component of an absolute URL, following the spec claim's
wording ("its path contains the literal segment /responses"): the part of
the URL from the first slash after the scheme-and-authority portion up to
the query or fragment.  This definition follows the claim's words, not the
source - client.py never parses the URL - and exists to compare the claim's
path-based classification against the code's whole-string substring test. -/
def urlPath (endpoint : String) : String :=
  ⟨((afterSchemeMarker endpoint.data).dropWhile fun c => c != '/').takeWhile
    fun c => c != '?' && c != '#'⟩

/-- A chat-completions 200 body whose usage supplies prompt 5 and
completion 1 but omits total_tokens. -/
def chatBodyNoTotal : JValue :=
  .obj [("choices", .arr [.obj [("message", .obj [("content", .str "hi")])]]),
        ("usage", .obj [("prompt_tokens", .num 5), ("completion_tokens", .num 1)])]

/-- A chat-completions 200 body whose usage supplies the consistent triple
(5, 1, 6). -/
def chatBodyConsistent : JValue :=
  .obj [("choices", .arr [.obj [("message", .obj [("content", .str "hi")])]]),
        ("usage", .obj [("prompt_tokens", .num 5), ("completion_tokens", .num 1),
                        ("total_tokens", .num 6)])]

/-- A chat-completions 200 body whose usage supplies prompt 5, completion 1
and an inconsistent total 7. -/
def chatBodyInconsistentTotal : JValue :=
  .obj [("choices", .arr [.obj [("message", .obj [("content", .str "hi")])]]),
        ("usage", .obj [("prompt_tokens", .num 5), ("completion_tokens", .num 1),
                        ("total_tokens", .num 7)])]

/-- A chat-completions 200 body with non-empty content "hi" whose usage
supplies prompt 5, completion 0 and total 5, so the fallback tokenizer
fires. -/
def chatBodyZeroCompletion : JValue :=
  .obj [("choices", .arr [.obj [("message", .obj [("content", .str "hi")])]]),
        ("usage", .obj [("prompt_tokens", .num 5), ("completion_tokens", .num 0),
                        ("total_tokens", .num 5)])]

/-- The SSE stream of the spec's streaming scenario: two responses-style
content deltas consumed at 10 ms and 20 ms, a completion event carrying
output_tokens 2 at 30 ms, and the [DONE] sentinel. -/
def demoRespLines : List (RawLine × ℚ) :=
  [(.event (.obj [("type", .str "response.output_text.delta"), ("delta", .str "a")]), 10),
   (.event (.obj [("type", .str "response.output_text.delta"), ("delta", .str "b")]), 20),
   (.event (.obj [("type", .str "response.completed"),
                  ("response", .obj [("usage", .obj [("output_tokens", .num 2)])])]), 30),
   (.done, 40)]

/-- A stream delivering one content delta at elapsed time exactly 0 ms, then
the [DONE] sentinel. -/
def demoZeroTtftLines : List (RawLine × ℚ) :=
  [(.event (.obj [("type", .str "response.output_text.delta"), ("delta", .str "a")]), 0),
   (.done, 1)]

/-- A successful buffered response with zero completion tokens, whose derived
tps is exactly 0. -/
def demoZeroTokResponse : LLMResponse :=
  { success := true
    content := some ""
    timing := some { total_latency_ms := 100 }
    tokens := some { prompt_tokens := 5, completion_tokens := 0, total_tokens := 5 } }

/-- A successful TestResult carrying no tps value. -/
def demoNoTpsResult : TestResult :=
  { prompt := "p"
    status := "success"
    timing := some { total_latency_ms := 100 }
    tps := none }

/-- A successful buffered-style result with latency 100 ms and no ttft. -/
def demoSuccess1 : TestResult :=
  { prompt := "p1"
    status := "success"
    timing := some { total_latency_ms := 100 }
    tokens := some { prompt_tokens := 3, completion_tokens := 7, total_tokens := 10 }
    tps := some 70 }

/-- A successful buffered-style result with latency 200 ms and no ttft. -/
def demoSuccess2 : TestResult :=
  { prompt := "p2"
    status := "success"
    timing := some { total_latency_ms := 200 }
    tokens := some { prompt_tokens := 3, completion_tokens := 9, total_tokens := 12 }
    tps := some 45 }

/-- A failed result. -/
def demoFailure : TestResult :=
  { prompt := "p3"
    status := "error"
    error_message := some "连接失败：connection refused" }

/-- A batch of three results: two successes (latencies 100 and 200 ms,
neither carrying a ttft) and one failure. -/
def demoBatch : List TestResult := [demoSuccess1, demoSuccess2, demoFailure]

/- ===================== helper lemmas ===================== -/

theorem foldl_min_le_init (vs : List ℚ) : ∀ a : ℚ, vs.foldl min a ≤ a := by
  induction vs with
  | nil => intro a; simp
  | cons v vs ih =>
    intro a
    calc (v :: vs).foldl min a = vs.foldl min (min a v) := rfl
    _ ≤ min a v := ih (min a v)
    _ ≤ a := min_le_left a v

theorem foldl_min_le_mem (vs : List ℚ) : ∀ a x : ℚ, x ∈ vs → vs.foldl min a ≤ x := by
  induction vs with
  | nil => intro a x hx; cases hx
  | cons v vs ih =>
    intro a x hx
    rcases List.mem_cons.mp hx with h | h
    · subst h
      calc (x :: vs).foldl min a = vs.foldl min (min a x) := rfl
      _ ≤ min a x := foldl_min_le_init vs (min a x)
      _ ≤ x := min_le_right a x
    · exact ih (min a v) x h

theorem foldl_min_mem (vs : List ℚ) : ∀ a : ℚ, vs.foldl min a = a ∨ vs.foldl min a ∈ vs := by
  induction vs with
  | nil => intro a; left; rfl
  | cons v vs ih =>
    intro a
    rcases ih (min a v) with h | h
    · rcases min_choice a v with hc | hc
      · left
        show vs.foldl min (min a v) = a
        rw [h, hc]
      · right
        show vs.foldl min (min a v) ∈ v :: vs
        rw [h, hc]
        exact List.mem_cons_self v vs
    · right
      exact List.mem_cons_of_mem v h

theorem init_le_foldl_max (vs : List ℚ) : ∀ a : ℚ, a ≤ vs.foldl max a := by
  induction vs with
  | nil => intro a; simp
  | cons v vs ih =>
    intro a
    calc a ≤ max a v := le_max_left a v
    _ ≤ vs.foldl max (max a v) := ih (max a v)
    _ = (v :: vs).foldl max a := rfl

theorem mem_le_foldl_max (vs : List ℚ) : ∀ a x : ℚ, x ∈ vs → x ≤ vs.foldl max a := by
  induction vs with
  | nil => intro a x hx; cases hx
  | cons v vs ih =>
    intro a x hx
    rcases List.mem_cons.mp hx with h | h
    · subst h
      calc x ≤ max a x := le_max_right a x
      _ ≤ vs.foldl max (max a x) := init_le_foldl_max vs (max a x)
      _ = (x :: vs).foldl max a := rfl
    · exact ih (max a v) x h

theorem foldl_max_mem (vs : List ℚ) : ∀ a : ℚ, vs.foldl max a = a ∨ vs.foldl max a ∈ vs := by
  induction vs with
  | nil => intro a; left; rfl
  | cons v vs ih =>
    intro a
    rcases ih (max a v) with h | h
    · rcases max_choice a v with hc | hc
      · left
        show vs.foldl max (max a v) = a
        rw [h, hc]
      · right
        show vs.foldl max (max a v) ∈ v :: vs
        rw [h, hc]
        exact List.mem_cons_self v vs
    · right
      exact List.mem_cons_of_mem v h

theorem pyMin_le (v : ℚ) (vs : List ℚ) : ∀ x ∈ v :: vs, pyMin (v :: vs) ≤ x := by
  intro x hx
  rcases List.mem_cons.mp hx with h | h
  · subst h
    exact foldl_min_le_init vs x
  · exact foldl_min_le_mem vs v x h

theorem pyMin_mem (v : ℚ) (vs : List ℚ) : pyMin (v :: vs) ∈ v :: vs := by
  rcases foldl_min_mem vs v with h | h
  · rw [pyMin, h]
    exact List.mem_cons_self v vs
  · exact List.mem_cons_of_mem v h

theorem le_pyMax (v : ℚ) (vs : List ℚ) : ∀ x ∈ v :: vs, x ≤ pyMax (v :: vs) := by
  intro x hx
  rcases List.mem_cons.mp hx with h | h
  · subst h
    exact init_le_foldl_max vs x
  · exact mem_le_foldl_max vs v x h

theorem pyMax_mem (v : ℚ) (vs : List ℚ) : pyMax (v :: vs) ∈ v :: vs := by
  rcases foldl_max_mem vs v with h | h
  · rw [pyMax, h]
    exact List.mem_cons_self v vs
  · exact List.mem_cons_of_mem v h

theorem round2_mono {a b : ℚ} (h : a ≤ b) : round2 a ≤ round2 b := by
  unfold round2
  have hr : round (a * 100) ≤ round (b * 100) := by
    rw [round_eq, round_eq]
    exact Int.floor_le_floor (by linarith)
  have h100 : (0 : ℚ) < 100 := by norm_num
  exact (div_le_div_iff_of_pos_right h100).mpr (by exact_mod_cast hr)

theorem pyMin_le_listMean (v : ℚ) (vs : List ℚ) : pyMin (v :: vs) ≤ listMean (v :: vs) := by
  have hlen : (0 : ℚ) < (((v :: vs).length : ℕ) : ℚ) := by
    exact_mod_cast Nat.succ_pos vs.length
  rw [listMean, le_div_iff₀ hlen]
  have hs : (v :: vs).length • pyMin (v :: vs) ≤ (v :: vs).sum :=
    List.card_nsmul_le_sum (v :: vs) (pyMin (v :: vs)) (pyMin_le v vs)
  rw [nsmul_eq_mul] at hs
  linarith

theorem listMean_le_pyMax (v : ℚ) (vs : List ℚ) : listMean (v :: vs) ≤ pyMax (v :: vs) := by
  have hlen : (0 : ℚ) < (((v :: vs).length : ℕ) : ℚ) := by
    exact_mod_cast Nat.succ_pos vs.length
  rw [listMean, div_le_iff₀ hlen]
  have hs : (v :: vs).sum ≤ (v :: vs).length • pyMax (v :: vs) :=
    List.sum_le_card_nsmul (v :: vs) (pyMax (v :: vs)) (le_pyMax v vs)
  rw [nsmul_eq_mul] at hs
  linarith

theorem listMean_perm {l₁ l₂ : List ℚ} (h : l₁.Perm l₂) : listMean l₁ = listMean l₂ := by
  unfold listMean
  rw [h.sum_eq, h.length_eq]

theorem sampleVariance_perm {l₁ l₂ : List ℚ} (h : l₁.Perm l₂) :
    sampleVariance l₁ = sampleVariance l₂ := by
  unfold sampleVariance
  rw [listMean_perm h, (h.map fun x => (x - listMean l₂) ^ 2).sum_eq, h.length_eq]

theorem pyMin_perm {l₁ l₂ : List ℚ} (h : l₁.Perm l₂) (hne : l₁ ≠ []) :
    pyMin l₁ = pyMin l₂ := by
  match l₁, l₂, h with
  | [], _, h => exact absurd rfl hne
  | v :: vs, l₂, h =>
    match l₂, h with
    | [], h => exact absurd h.length_eq (by simp)
    | w :: ws, h =>
      apply le_antisymm
      · exact pyMin_le v vs (pyMin (w :: ws)) (h.symm.subset (pyMin_mem w ws))
      · exact pyMin_le w ws (pyMin (v :: vs)) (h.subset (pyMin_mem v vs))

theorem pyMax_perm {l₁ l₂ : List ℚ} (h : l₁.Perm l₂) (hne : l₁ ≠ []) :
    pyMax l₁ = pyMax l₂ := by
  match l₁, l₂, h with
  | [], _, h => exact absurd rfl hne
  | v :: vs, l₂, h =>
    match l₂, h with
    | [], h => exact absurd h.length_eq (by simp)
    | w :: ws, h =>
      apply le_antisymm
      · exact le_pyMax w ws (pyMax (v :: vs)) (h.subset (pyMax_mem v vs))
      · exact le_pyMax v vs (pyMax (w :: ws)) (h.symm.subset (pyMax_mem w ws))

/- ===================== claim theorems ===================== -/

/-- C9: calculate_tps equals tokens divided by latency-in-seconds for every
non-negative token count and positive latency, and returns 0 for every
latency that is zero or negative (the function is total, so no call can
raise). -/
theorem calculate_tps_spec (tokens : Int) (latency_ms : ℚ) :
    (0 ≤ tokens → 0 < latency_ms →
      calculate_tps tokens latency_ms = (tokens : ℚ) / (latency_ms / 1000)) ∧
    (latency_ms ≤ 0 → calculate_tps tokens latency_ms = 0) := by
  constructor
  · intro _ hpos
    unfold calculate_tps
    rw [if_neg (not_le.mpr hpos)]
  · intro hle
    unfold calculate_tps
    rw [if_pos hle]

/-- C9 witness: at tokens 30 and latency 500 ms the throughput is 60 tokens
per second, and at latency 0 it is 0. -/
theorem calculate_tps_spec_witness :
    calculate_tps 30 500 = (30 : ℚ) / (500 / 1000) ∧
    (30 : ℚ) / (500 / 1000) = 60 ∧
    calculate_tps 30 0 = 0 := by
  refine ⟨(calculate_tps_spec 30 500).1 (by norm_num) (by norm_num), by norm_num,
    (calculate_tps_spec 30 0).2 le_rfl⟩

/-- C6: aggregate_values returns the all-zero record on the empty list; on
every non-empty list it returns the length as count, the rounded mean, the
rounded sample standard deviation (0 when count is 1), the rounded minimum
and maximum, with min_val ≤ avg ≤ max_val; and it is invariant under
permutations of its input (hence independent of sortedness; being a pure
function of an immutable list, it cannot mutate its input). -/
theorem aggregate_values_spec :
    aggregate_values ([] : List ℚ) = ({} : AggregatedStats) ∧
    (∀ values : List ℚ, values ≠ [] →
      (aggregate_values values).count = values.length ∧
      (aggregate_values values).avg = round2 (listMean values) ∧
      (aggregate_values values).std =
        round2 (if 1 < values.length then sampleStdev values else 0) ∧
      (values.length = 1 → (aggregate_values values).std = 0) ∧
      (aggregate_values values).min_val = round2 (pyMin values) ∧
      (aggregate_values values).max_val = round2 (pyMax values) ∧
      (aggregate_values values).min_val ≤ (aggregate_values values).avg ∧
      (aggregate_values values).avg ≤ (aggregate_values values).max_val) ∧
    (∀ l₁ l₂ : List ℚ, l₁.Perm l₂ → aggregate_values l₁ = aggregate_values l₂) := by
  refine ⟨rfl, ?_, ?_⟩
  · intro values hne
    match values, hne with
    | v :: vs, _ =>
      have hemp : (v :: vs).isEmpty = false := rfl
      refine ⟨?_, ?_, ?_, ?_, ?_, ?_, ?_, ?_⟩
      · simp [aggregate_values, hemp]
      · simp [aggregate_values, hemp]
      · simp [aggregate_values, hemp]
      · intro hlen
        simp only [aggregate_values, hemp, Bool.false_eq_true, if_false, hlen]
        norm_num [round2]
      · simp [aggregate_values, hemp]
      · simp [aggregate_values, hemp]
      · simp only [aggregate_values, hemp, Bool.false_eq_true, if_false]
        exact round2_mono (pyMin_le_listMean v vs)
      · simp only [aggregate_values, hemp, Bool.false_eq_true, if_false]
        exact round2_mono (listMean_le_pyMax v vs)
  · intro l₁ l₂ h
    match l₁, h with
    | [], h =>
      have : l₂ = [] := by
        have hl := h.length_eq
        simpa using (List.length_eq_zero.mp hl.symm)
      rw [this]
    | v :: vs, h =>
      have hne₁ : v :: vs ≠ ([] : List ℚ) := List.cons_ne_nil v vs
      have hne₂ : l₂ ≠ ([] : List ℚ) := by
        intro e
        rw [e] at h
        exact absurd h.length_eq (by simp)
      match l₂, hne₂, h with
      | w :: ws, _, h =>
        have hemp₁ : (v :: vs).isEmpty = false := rfl
        have hemp₂ : (w :: ws).isEmpty = false := rfl
        simp only [aggregate_values, hemp₁, hemp₂, Bool.false_eq_true, if_false]
        rw [h.length_eq, listMean_perm h, pyMin_perm h hne₁, pyMax_perm h hne₁]
        unfold sampleStdev
        rw [sampleVariance_perm h]

/-- C6 witness: on the unsorted two-element list [2, 1] the rounded minimum,
mean and maximum are correctly ordered, on a singleton the standard deviation
is 0, and permuting the input does not change the result. -/
theorem aggregate_values_spec_witness :
    (aggregate_values [2, 1]).min_val ≤ (aggregate_values [2, 1]).avg ∧
    (aggregate_values [2, 1]).avg ≤ (aggregate_values [2, 1]).max_val ∧
    (aggregate_values [5]).std = 0 ∧
    aggregate_values [1, 2] = aggregate_values [2, 1] := by
  refine ⟨?_, ?_, ?_, ?_⟩
  · exact (aggregate_values_spec.2.1 [2, 1] (List.cons_ne_nil 2 [1])).2.2.2.2.2.2.1
  · exact (aggregate_values_spec.2.1 [2, 1] (List.cons_ne_nil 2 [1])).2.2.2.2.2.2.2
  · exact (aggregate_values_spec.2.1 [5] (List.cons_ne_nil 5 [])).2.2.2.1 rfl
  · exact aggregate_values_spec.2.2 [1, 2] [2, 1] (List.Perm.swap 2 1 [])

theorem maybeAggregate_eq_none (values : List ℚ) :
    maybeAggregate values = none ↔ values = [] := by
  unfold maybeAggregate
  rcases values with _ | ⟨v, vs⟩
  · simp
  · simp

theorem maybeAggregate_eq_some (values : List ℚ) (hne : values ≠ []) :
    maybeAggregate values = some (aggregate_values values) := by
  unfold maybeAggregate
  rcases values with _ | ⟨v, vs⟩
  · exact absurd rfl hne
  · simp

/-- C5: summarize_results reports the sequence length as total_requests, the
number of results with status "success" as successful, failed as total minus
successful, and each of the four stats fields is None exactly when its sample
set (drawn from successful results only) is empty, and is the aggregate of
that sample set otherwise. -/
theorem summarize_results_spec (results : List TestResult) :
    (summarize_results results).total_requests = results.length ∧
    (summarize_results results).successful =
      (results.filter fun r => r.status == "success").length ∧
    (summarize_results results).failed =
      results.length - (summarize_results results).successful ∧
    ((summarize_results results).latency_stats = none ↔ latencySamples results = []) ∧
    ((summarize_results results).ttft_stats = none ↔ ttftSamples results = []) ∧
    ((summarize_results results).output_tokens_stats = none ↔
      outputTokenSamples results = []) ∧
    ((summarize_results results).tps_stats = none ↔ tpsSamples results = []) ∧
    (latencySamples results ≠ [] →
      (summarize_results results).latency_stats =
        some (aggregate_values (latencySamples results))) ∧
    (ttftSamples results ≠ [] →
      (summarize_results results).ttft_stats =
        some (aggregate_values (ttftSamples results))) ∧
    (outputTokenSamples results ≠ [] →
      (summarize_results results).output_tokens_stats =
        some (aggregate_values (outputTokenSamples results))) ∧
    (tpsSamples results ≠ [] →
      (summarize_results results).tps_stats =
        some (aggregate_values (tpsSamples results))) := by
  refine ⟨rfl, rfl, rfl, maybeAggregate_eq_none _, maybeAggregate_eq_none _,
    maybeAggregate_eq_none _, maybeAggregate_eq_none _,
    maybeAggregate_eq_some _, maybeAggregate_eq_some _,
    maybeAggregate_eq_some _, maybeAggregate_eq_some _⟩

/-- C5 witness: on a batch of three results, two successful with latencies
100 and 200 ms and no ttft, one failed, the summary reports total 3,
successful 2, failed 1, latency stats over [100, 200] with mean 150, min 100
and max 200, token and tps stats present, and no ttft stats. -/
theorem summarize_results_spec_witness :
    (summarize_results demoBatch).total_requests = 3 ∧
    (summarize_results demoBatch).successful = 2 ∧
    (summarize_results demoBatch).failed = 1 ∧
    (summarize_results demoBatch).latency_stats = some (aggregate_values [100, 200]) ∧
    (aggregate_values [100, 200]).avg = 150 ∧
    (aggregate_values [100, 200]).min_val = 100 ∧
    (aggregate_values [100, 200]).max_val = 200 ∧
    (summarize_results demoBatch).ttft_stats = none ∧
    (summarize_results demoBatch).output_tokens_stats ≠ none ∧
    (summarize_results demoBatch).tps_stats ≠ none := by
  have hlat : latencySamples demoBatch = [100, 200] := by
    simp [latencySamples, successfulResults, demoBatch, demoSuccess1, demoSuccess2,
      demoFailure]
  have httft : ttftSamples demoBatch = [] := by
    simp [ttftSamples, successfulResults, demoBatch, demoSuccess1, demoSuccess2,
      demoFailure]
  have htok : outputTokenSamples demoBatch = [(7 : ℚ), (9 : ℚ)] := by
    simp [outputTokenSamples, successfulResults, demoBatch, demoSuccess1, demoSuccess2,
      demoFailure]
  have htps : tpsSamples demoBatch = [70, 45] := by
    simp [tpsSamples, successfulResults, demoBatch, demoSuccess1, demoSuccess2,
      demoFailure]
  refine ⟨?_, ?_, ?_, ?_, ?_, ?_, ?_, ?_, ?_, ?_⟩
  · exact (summarize_results_spec demoBatch).1.trans (by rfl)
  · exact (summarize_results_spec demoBatch).2.1.trans (by rfl)
  · exact (summarize_results_spec demoBatch).2.2.1.trans (by rfl)
  · rw [(summarize_results_spec demoBatch).2.2.2.2.2.2.2.1 (by rw [hlat]; simp), hlat]
  · rw [(aggregate_values_spec.2.1 [100, 200] (List.cons_ne_nil 100 [200])).2.1]
    norm_num [listMean, round2, round_eq]
  · rw [(aggregate_values_spec.2.1 [100, 200] (List.cons_ne_nil 100 [200])).2.2.2.2.1]
    norm_num [pyMin, round2, round_eq]
  · rw [(aggregate_values_spec.2.1 [100, 200] (List.cons_ne_nil 100 [200])).2.2.2.2.2.1]
    norm_num [pyMax, round2, round_eq]
  · exact ((summarize_results_spec demoBatch).2.2.2.2.1).mpr httft
  · intro hnone
    have := ((summarize_results_spec demoBatch).2.2.2.2.2.1).mp hnone
    rw [htok] at this
    cases this
  · intro hnone
    have := ((summarize_results_spec demoBatch).2.2.2.2.2.2.1).mp hnone
    rw [htps] at this
    cases this

theorem lookupField_append (l₁ l₂ : List (String × JValue)) (key : String) :
    lookupField (l₁ ++ l₂) key =
      match lookupField l₁ key with
      | some v => some v
      | none => lookupField l₂ key := by
  induction l₁ with
  | nil => simp [lookupField]
  | cons kv rest ih =>
    obtain ⟨k, v⟩ := kv
    by_cases h : k == key
    · simp [lookupField, h]
    · simp [lookupField, h, ih]

/-- C7: the client is classified as responses-style at construction exactly
when the raw endpoint string contains the literal `/responses`; the stored
flag, never the endpoint, drives every later call (replacing the endpoint
field of a constructed client changes neither request building nor either
call path), and the flag deterministically selects the wire format of the
built request body: the responses shape carries `input` and no `messages`,
the chat-completions shape carries `messages` and no `input`. -/
theorem format_detection_spec :
    (∀ endpoint api_key model timeout reasoning_effort max_tokens no_cache,
      (mkLLMClient endpoint api_key model timeout reasoning_effort max_tokens
          no_cache).is_responses_api
        = strContains endpoint "/responses") ∧
    (∀ (c : LLMClient) (e₂ prompt : String) (stream : Bool),
      build_request_body { c with endpoint := e₂ } prompt stream
        = build_request_body c prompt stream) ∧
    (∀ (tok : String → String → Int) (c : LLMClient) (e₂ : String)
        (outcome : HttpOutcome) (latency : ℚ),
      call_api tok { c with endpoint := e₂ } outcome latency
        = call_api tok c outcome latency) ∧
    (∀ (tok : String → String → Int) (c : LLMClient) (e₂ : String)
        (outcome : StreamOutcome) (latency : ℚ),
      call_api_stream tok { c with endpoint := e₂ } outcome latency
        = call_api_stream tok c outcome latency) ∧
    (∀ (c : LLMClient) (prompt : String) (stream : Bool),
      (c.is_responses_api = true →
        jGet (build_request_body c prompt stream) "input" = some (.str prompt) ∧
        jGet (build_request_body c prompt stream) "messages" = none) ∧
      (c.is_responses_api = false →
        jGet (build_request_body c prompt stream) "messages"
          = some (.arr [.obj [("role", .str "user"), ("content", .str prompt)]]) ∧
        jGet (build_request_body c prompt stream) "input" = none)) := by
  refine ⟨fun _ _ _ _ _ _ _ => rfl, fun _ _ _ _ => rfl, fun _ _ _ _ _ => rfl,
    fun _ _ _ _ _ => rfl, ?_⟩
  intro c prompt stream
  constructor
  · intro hflag
    constructor
    · simp [build_request_body, hflag, jGet, lookupField]
    · simp only [build_request_body, hflag, if_true, jGet]
      rw [lookupField_append, lookupField_append, lookupField_append]
      rcases c.reasoning_effort with _ | e <;>
        rcases c.max_tokens with _ | m <;>
          rcases hc : c.no_cache <;>
            simp [lookupField] <;> split_ifs <;> simp [lookupField]
  · intro hflag
    constructor
    · simp [build_request_body, hflag, jGet, lookupField]
    · simp only [build_request_body, hflag, Bool.false_eq_true, if_false, jGet]
      rw [lookupField_append, lookupField_append]
      rcases c.reasoning_effort with _ | e <;>
        rcases c.max_tokens with _ | m <;>
          simp [lookupField] <;> split_ifs <;> simp [lookupField]

/-- C7 witness: a concrete endpoint with the `/responses` segment is
classified responses-style and builds an `input`-shaped body; one without it
is classified chat-style and builds a `messages`-shaped body; replacing the
endpoint of a constructed client leaves the built body unchanged. -/
theorem format_detection_spec_witness :
    demoRespClient.is_responses_api = strContains "https://example.com/openai/responses" "/responses" ∧
    demoRespClient.is_responses_api = true ∧
    demoChatClient.is_responses_api = strContains "https://api.example.com/v1/chat/completions" "/responses" ∧
    demoChatClient.is_responses_api = false ∧
    jGet (build_request_body demoRespClient "hi" true) "input" = some (.str "hi") ∧
    jGet (build_request_body demoRespClient "hi" true) "messages" = none ∧
    jGet (build_request_body demoChatClient "hi" false) "messages"
      = some (.arr [.obj [("role", .str "user"), ("content", .str "hi")]]) ∧
    jGet (build_request_body demoChatClient "hi" false) "input" = none ∧
    build_request_body { demoChatClient with endpoint := "elsewhere" } "hi" false
      = build_request_body demoChatClient "hi" false := by
  have hr : demoRespClient.is_responses_api = true := by decide
  have hc : demoChatClient.is_responses_api = false := by decide
  refine ⟨?_, hr, ?_, hc, ?_, ?_, ?_, ?_, ?_⟩
  · exact format_detection_spec.1 "https://example.com/openai/responses" "key" "gpt-test"
      120 none none false
  · exact format_detection_spec.1 "https://api.example.com/v1/chat/completions" "key"
      "gpt-test" 120 none none false
  · exact ((format_detection_spec.2.2.2.2 demoRespClient "hi" true).1 hr).1
  · exact ((format_detection_spec.2.2.2.2 demoRespClient "hi" true).1 hr).2
  · exact ((format_detection_spec.2.2.2.2 demoChatClient "hi" false).2 hc).1
  · exact ((format_detection_spec.2.2.2.2 demoChatClient "hi" false).2 hc).2
  · exact format_detection_spec.2.1 demoChatClient "elsewhere" "hi" false

/-- C7 counterexample: the endpoint
`https://responses.example.com/v1/chat/completions` is classified
responses-style at construction (the code tests `"/responses" in endpoint`
on the whole URL string, and the host part contains it), yet its path is
`/v1/chat/completions`, which contains no `/responses` segment - so the
claimed "responses-style iff the path contains /responses" biconditional is
false of the program. -/
theorem format_detection_counterexample :
    (mkLLMClient "https://responses.example.com/v1/chat/completions" "key" "gpt-test"
        120 none none false).is_responses_api = true ∧
    urlPath "https://responses.example.com/v1/chat/completions"
      = "/v1/chat/completions" ∧
    strContains (urlPath "https://responses.example.com/v1/chat/completions")
        "/responses" = false := by
  refine ⟨by decide, by decide, by decide⟩

/-- C3: the buffered call classifies every outcome by the fixed taxonomy -
401 authentication, 403 permission, 429 rate limit, ≥ 500 server error with
the numeric status, any other non-200 status a generic HTTP failure with the
status, malformed JSON on a 200 response a parse failure, transport timeout a
timeout failure carrying the configured timeout, transport connection failure
a connection failure - and for every outcome whatsoever it returns a tagged
Result (success with no error message, or failure with one), never
propagating an exception. -/
theorem call_api_taxonomy (tok : String → String → Int) (c : LLMClient) (latency : ℚ) :
    (∀ body, call_api tok c (.httpResponse 401 body) latency
      = mkFailure "认证失败：API 密钥无效或已过期") ∧
    (∀ body, call_api tok c (.httpResponse 403 body) latency
      = mkFailure "权限不足：无法访问该模型或资源") ∧
    (∀ body, call_api tok c (.httpResponse 429 body) latency
      = mkFailure "请求过于频繁：已触发速率限制") ∧
    (∀ status body, 500 ≤ status →
      call_api tok c (.httpResponse status body) latency
        = mkFailure ("服务器错误：" ++ toString status)) ∧
    (∀ status body, status ≠ 401 → status ≠ 403 → status ≠ 429 → status < 500 →
      status ≠ 200 →
      call_api tok c (.httpResponse status body) latency
        = mkFailure ("请求失败：HTTP " ++ toString status)) ∧
    (∀ e, call_api tok c (.httpResponse 200 (.error e)) latency
      = mkFailure ("JSON 解析失败：" ++ e)) ∧
    (call_api tok c .timeout latency
      = mkFailure ("请求超时：超过 " ++ toString c.timeout ++ " 秒")) ∧
    (∀ msg, call_api tok c (.connectError msg) latency
      = mkFailure ("连接失败：" ++ msg)) ∧
    (∀ outcome : HttpOutcome,
      ((call_api tok c outcome latency).success = true ∧
        (call_api tok c outcome latency).error_message = none) ∨
      ((call_api tok c outcome latency).success = false ∧
        ∃ msg, (call_api tok c outcome latency).error_message = some msg)) := by
  refine ⟨?_, ?_, ?_, ?_, ?_, ?_, ?_, ?_, ?_⟩
  · intro body
    simp [call_api]
  · intro body
    simp [call_api]
  · intro body
    simp [call_api]
  · intro status body h500
    simp only [call_api]
    rw [if_neg (by omega), if_neg (by omega), if_neg (by omega), if_pos h500]
  · intro status body h401 h403 h429 h500 h200
    simp only [call_api]
    rw [if_neg h401, if_neg h403, if_neg h429, if_neg (by omega), if_pos h200]
  · intro e
    simp [call_api]
  · rfl
  · intro msg
    rfl
  · intro outcome
    match outcome with
    | .timeout => exact Or.inr ⟨rfl, _, rfl⟩
    | .connectError msg => exact Or.inr ⟨rfl, _, rfl⟩
    | .unexpectedError msg => exact Or.inr ⟨rfl, _, rfl⟩
    | .httpResponse status body =>
      simp only [call_api]
      split_ifs
      · exact Or.inr ⟨rfl, _, rfl⟩
      · exact Or.inr ⟨rfl, _, rfl⟩
      · exact Or.inr ⟨rfl, _, rfl⟩
      · exact Or.inr ⟨rfl, _, rfl⟩
      · exact Or.inr ⟨rfl, _, rfl⟩
      · rcases body with e | data
        · exact Or.inr ⟨rfl, _, rfl⟩
        · rcases hx : extract_content_from_response c.is_responses_api data with e | content
          · simp only [hx]
            exact Or.inr ⟨rfl, _, rfl⟩
          · rcases hy : extract_tokens_from_response c.is_responses_api data with e | tokens0
            · simp only [hx, hy]
              exact Or.inr ⟨rfl, _, rfl⟩
            · simp only [hx, hy]
              exact Or.inl ⟨trivial, trivial⟩

/-- C3 witness: concrete classifications at statuses 401, 429, 503, 404, a
malformed body on 200, a timeout and a connection error, and the tagged
totality at a successful 200 outcome. -/
theorem call_api_taxonomy_witness :
    call_api demoTok demoChatClient (.httpResponse 401 (.ok .null)) 5
      = mkFailure "认证失败：API 密钥无效或已过期" ∧
    call_api demoTok demoChatClient (.httpResponse 429 (.ok .null)) 5
      = mkFailure "请求过于频繁：已触发速率限制" ∧
    call_api demoTok demoChatClient (.httpResponse 503 (.ok .null)) 5
      = mkFailure ("服务器错误：" ++ toString 503) ∧
    call_api demoTok demoChatClient (.httpResponse 404 (.ok .null)) 5
      = mkFailure ("请求失败：HTTP " ++ toString 404) ∧
    call_api demoTok demoChatClient (.httpResponse 200 (.error "Expecting value")) 5
      = mkFailure ("JSON 解析失败：" ++ "Expecting value") ∧
    call_api demoTok demoChatClient .timeout 5
      = mkFailure ("请求超时：超过 " ++ toString demoChatClient.timeout ++ " 秒") ∧
    call_api demoTok demoChatClient (.connectError "refused") 5
      = mkFailure ("连接失败：" ++ "refused") ∧
    (((call_api demoTok demoChatClient (.httpResponse 200 (.ok (.obj []))) 5).success = true ∧
      (call_api demoTok demoChatClient (.httpResponse 200 (.ok (.obj []))) 5).error_message = none) ∨
     ((call_api demoTok demoChatClient (.httpResponse 200 (.ok (.obj []))) 5).success = false ∧
      ∃ msg, (call_api demoTok demoChatClient (.httpResponse 200 (.ok (.obj []))) 5).error_message
        = some msg)) := by
  refine ⟨(call_api_taxonomy demoTok demoChatClient 5).1 (.ok .null),
    (call_api_taxonomy demoTok demoChatClient 5).2.2.1 (.ok .null),
    (call_api_taxonomy demoTok demoChatClient 5).2.2.2.1 503 (.ok .null) (by omega),
    (call_api_taxonomy demoTok demoChatClient 5).2.2.2.2.1 404 (.ok .null)
      (by omega) (by omega) (by omega) (by omega) (by omega),
    (call_api_taxonomy demoTok demoChatClient 5).2.2.2.2.2.1 "Expecting value",
    (call_api_taxonomy demoTok demoChatClient 5).2.2.2.2.2.2.1,
    (call_api_taxonomy demoTok demoChatClient 5).2.2.2.2.2.2.2.1 "refused",
    (call_api_taxonomy demoTok demoChatClient 5).2.2.2.2.2.2.2.2
      (.httpResponse 200 (.ok (.obj [])))⟩

/-- C4: the fallback tokenizer step of the buffered call (lines 206-209,
`applyFallbackTokens`, applied by `call_api` to the extracted tokens) and of
the streaming call (lines 350-352, `streamFallbackTokens`, applied by
`call_api_stream` to the accumulated content) fires exactly when the
extracted completion count is zero and the content is non-empty; when it
fires in the buffered case the total is recomputed as prompt + completion. -/
theorem fallback_tokenizer_iff (tok : String → String → Int)
    (model content : String) (tokens : TokenMetrics) (completion : Int) :
    ((applyFallbackTokens tok model content tokens).2 = true ↔
      (tokens.completion_tokens = 0 ∧ content ≠ "")) ∧
    ((applyFallbackTokens tok model content tokens).2 = true →
      (applyFallbackTokens tok model content tokens).1.total_tokens =
        (applyFallbackTokens tok model content tokens).1.prompt_tokens +
          (applyFallbackTokens tok model content tokens).1.completion_tokens) ∧
    ((applyFallbackTokens tok model content tokens).2 = false →
      (applyFallbackTokens tok model content tokens).1 = tokens) ∧
    ((streamFallbackTokens tok model content completion).2 = true ↔
      (completion = 0 ∧ content ≠ "")) ∧
    ((streamFallbackTokens tok model content completion).2 = false →
      (streamFallbackTokens tok model content completion).1 = completion) := by
  unfold applyFallbackTokens streamFallbackTokens
  refine ⟨?_, ?_, ?_, ?_, ?_⟩
  · split_ifs with h <;> simp_all [beq_iff_eq, bne_iff_ne]
  · split_ifs with h <;> simp_all [beq_iff_eq, bne_iff_ne]
  · split_ifs with h <;> simp_all [beq_iff_eq, bne_iff_ne]
  · split_ifs with h <;> simp_all [beq_iff_eq, bne_iff_ne]
  · split_ifs with h <;> simp_all [beq_iff_eq, bne_iff_ne]

/-- C4 witness: with server-reported completion 0 and content "hi" the
buffered fallback fires and yields total = prompt + completion; with
completion 7 it does not fire; the streaming fallback behaves identically. -/
theorem fallback_tokenizer_iff_witness :
    ((applyFallbackTokens demoTok "gpt-test" "hi"
        { prompt_tokens := 5, completion_tokens := 0, total_tokens := 5 }).2 = true ↔
      (({ prompt_tokens := 5, completion_tokens := 0, total_tokens := 5 }
          : TokenMetrics).completion_tokens = 0 ∧ ("hi" : String) ≠ "")) ∧
    (applyFallbackTokens demoTok "gpt-test" "hi"
        { prompt_tokens := 5, completion_tokens := 0, total_tokens := 5 }).1.total_tokens =
      (applyFallbackTokens demoTok "gpt-test" "hi"
        { prompt_tokens := 5, completion_tokens := 0, total_tokens := 5 }).1.prompt_tokens +
      (applyFallbackTokens demoTok "gpt-test" "hi"
        { prompt_tokens := 5, completion_tokens := 0, total_tokens := 5 }).1.completion_tokens ∧
    (applyFallbackTokens demoTok "gpt-test" "hi"
        { prompt_tokens := 5, completion_tokens := 7, total_tokens := 12 }).1 =
      { prompt_tokens := 5, completion_tokens := 7, total_tokens := 12 } ∧
    ((streamFallbackTokens demoTok "gpt-test" "" 0).2 = true ↔
      ((0 : Int) = 0 ∧ ("" : String) ≠ "")) := by
  refine ⟨(fallback_tokenizer_iff demoTok "gpt-test" "hi" _ 0).1, ?_, ?_, ?_⟩
  · exact (fallback_tokenizer_iff demoTok "gpt-test" "hi"
      { prompt_tokens := 5, completion_tokens := 0, total_tokens := 5 } 0).2.1 (by rfl)
  · exact (fallback_tokenizer_iff demoTok "gpt-test" "hi"
      { prompt_tokens := 5, completion_tokens := 7, total_tokens := 12 } 0).2.2.1 (by rfl)
  · exact (fallback_tokenizer_iff demoTok "gpt-test" ""
      { prompt_tokens := 0, completion_tokens := 0, total_tokens := 0 } 0).2.2.2.1

theorem call_api_200_ok (tok : String → String → Int) (c : LLMClient) (latency : ℚ)
    (data : JValue) (content : String) (tokens0 : TokenMetrics)
    (hc : extract_content_from_response c.is_responses_api data = .ok content)
    (ht : extract_tokens_from_response c.is_responses_api data = .ok tokens0) :
    call_api tok c (.httpResponse 200 (.ok data)) latency =
      { success := true
        content := some content
        timing := some { total_latency_ms := round2 latency }
        tokens := some (applyFallbackTokens tok c.model content tokens0).1
        raw_response := some data } := by
  simp [call_api, hc, ht]

theorem call_api_200_error_content (tok : String → String → Int) (c : LLMClient)
    (latency : ℚ) (data : JValue) (e : String)
    (hc : extract_content_from_response c.is_responses_api data = .error e) :
    call_api tok c (.httpResponse 200 (.ok data)) latency
      = mkFailure ("未知错误：" ++ e) := by
  simp [call_api, hc]

/-- C2 counterexample: a buffered chat-completions call whose 200 body
supplies prompt_tokens 5 and completion_tokens 1 but omits total_tokens
returns a success Result whose Tokens record is (5, 1, 0) with 0 ≠ 5 + 1;
likewise a body supplying the inconsistent triple (5, 1, 7) yields
(5, 1, 7) with 7 ≠ 5 + 1.  The code reports the server total verbatim
(defaulting it to 0) instead of enforcing total = prompt + completion. -/
theorem buffered_total_counterexample :
    (call_api demoTok demoChatClient (.httpResponse 200 (.ok chatBodyNoTotal)) 50).success
      = true ∧
    (call_api demoTok demoChatClient (.httpResponse 200 (.ok chatBodyNoTotal)) 50).tokens
      = some { prompt_tokens := 5, completion_tokens := 1, total_tokens := 0 } ∧
    (0 : Int) ≠ 5 + 1 ∧
    (call_api demoTok demoChatClient
      (.httpResponse 200 (.ok chatBodyInconsistentTotal)) 50).success = true ∧
    (call_api demoTok demoChatClient
      (.httpResponse 200 (.ok chatBodyInconsistentTotal)) 50).tokens
      = some { prompt_tokens := 5, completion_tokens := 1, total_tokens := 7 } ∧
    (7 : Int) ≠ 5 + 1 := by
  refine ⟨rfl, rfl, by decide, rfl, rfl, by decide⟩

/-- C2 amended: a buffered call that returns a success Result carries the
server-supplied counts verbatim - prompt, completion and total - except that
when the supplied completion count is 0 and the extracted content is
non-empty, the fallback tokenizer recomputes completion and sets
total = prompt + completion.  Consequently total = prompt + completion holds
on the returned record whenever the server's usage object supplied both
counts together with a total equal to their sum. -/
theorem buffered_total_amended (tok : String → String → Int) (c : LLMClient)
    (latency : ℚ) (data : JValue) (p cc t : Int) (content : String)
    (hsup : usageSupplies c.is_responses_api data p cc t)
    (hcont : extract_content_from_response c.is_responses_api data = .ok content) :
    (call_api tok c (.httpResponse 200 (.ok data)) latency).success = true ∧
    (call_api tok c (.httpResponse 200 (.ok data)) latency).content = some content ∧
    ((cc = 0 ∧ content ≠ "") →
      (call_api tok c (.httpResponse 200 (.ok data)) latency).tokens =
        some { prompt_tokens := p, completion_tokens := tok content c.model,
               total_tokens := p + tok content c.model }) ∧
    (¬(cc = 0 ∧ content ≠ "") →
      (call_api tok c (.httpResponse 200 (.ok data)) latency).tokens =
        some { prompt_tokens := p, completion_tokens := cc, total_tokens := t }) ∧
    (t = p + cc →
      ∀ tk, (call_api tok c (.httpResponse 200 (.ok data)) latency).tokens = some tk →
        tk.total_tokens = tk.prompt_tokens + tk.completion_tokens) := by
  obtain ⟨ufs, hu, hp, hcc, ht⟩ := hsup
  match data, hu, hcont with
  | .obj fields, hu, hcont =>
    have hu2 : lookupField fields "usage" = some (.obj ufs) := hu
    have htok : extract_tokens_from_response c.is_responses_api (.obj fields)
        = .ok { prompt_tokens := p, completion_tokens := cc, total_tokens := t } := by
      cases hflag : c.is_responses_api
      · rw [hflag] at hp hcc
        simp only [if_false, Bool.false_eq_true] at hp hcc
        simp [extract_tokens_from_response, asObjFields, hu2, jIntFieldsD, hp, hcc, ht]
      · rw [hflag] at hp hcc
        simp only [if_true] at hp hcc
        simp [extract_tokens_from_response, asObjFields, hu2, jIntFieldsD, hp, hcc, ht]
    rw [call_api_200_ok tok c latency (.obj fields) content _ hcont htok]
    refine ⟨rfl, rfl, ?_, ?_, ?_⟩
    · intro hfire
      simp [applyFallbackTokens, hfire.1, hfire.2]
    · intro hnot
      by_cases hc0 : cc = 0
      · have hcontent : content = "" := by
          by_contra hne
          exact hnot ⟨hc0, hne⟩
        simp [applyFallbackTokens, hc0, hcontent]
      · simp [applyFallbackTokens, hc0]
    · intro hcons tk htk
      simp only [Option.some.injEq] at htk
      subst htk
      unfold applyFallbackTokens
      split_ifs with h
      · rfl
      · exact hcons

/-- C2 amended witness: on a chat-completions body with consistent usage
(5, 1, 6) the buffered call succeeds and passes the counts through verbatim,
with total = prompt + completion on the returned record; on a body with
usage (5, 0, 5) and content "hi" the fallback fires, returning the tokenizer
count with total = prompt + completion again. -/
theorem buffered_total_amended_witness :
    (call_api demoTok demoChatClient (.httpResponse 200 (.ok chatBodyConsistent)) 50).tokens
      = some { prompt_tokens := 5, completion_tokens := 1, total_tokens := 6 } ∧
    ({ prompt_tokens := 5, completion_tokens := 1, total_tokens := 6 }
        : TokenMetrics).total_tokens
      = ({ prompt_tokens := 5, completion_tokens := 1, total_tokens := 6 }
        : TokenMetrics).prompt_tokens +
        ({ prompt_tokens := 5, completion_tokens := 1, total_tokens := 6 }
        : TokenMetrics).completion_tokens ∧
    (call_api demoTok demoChatClient
      (.httpResponse 200 (.ok chatBodyZeroCompletion)) 50).tokens
      = some { prompt_tokens := 5,
               completion_tokens := demoTok "hi" demoChatClient.model,
               total_tokens := 5 + demoTok "hi" demoChatClient.model } ∧
    ({ prompt_tokens := 5, completion_tokens := demoTok "hi" demoChatClient.model,
       total_tokens := 5 + demoTok "hi" demoChatClient.model }
        : TokenMetrics).total_tokens
      = ({ prompt_tokens := 5, completion_tokens := demoTok "hi" demoChatClient.model,
           total_tokens := 5 + demoTok "hi" demoChatClient.model }
          : TokenMetrics).prompt_tokens +
        ({ prompt_tokens := 5, completion_tokens := demoTok "hi" demoChatClient.model,
           total_tokens := 5 + demoTok "hi" demoChatClient.model }
          : TokenMetrics).completion_tokens := by
  have h1 := buffered_total_amended demoTok demoChatClient 50 chatBodyConsistent
    5 1 6 "hi"
    ⟨[("prompt_tokens", .num 5), ("completion_tokens", .num 1), ("total_tokens", .num 6)],
      rfl, rfl, rfl, rfl⟩ rfl
  have h2 := buffered_total_amended demoTok demoChatClient 50 chatBodyZeroCompletion
    5 0 5 "hi"
    ⟨[("prompt_tokens", .num 5), ("completion_tokens", .num 0), ("total_tokens", .num 5)],
      rfl, rfl, rfl, rfl⟩ rfl
  have e1 := h1.2.2.2.1 (by decide)
  have e2 := h2.2.2.1 (by decide)
  refine ⟨e1, ?_, e2, ?_⟩
  · exact h1.2.2.2.2 (by decide)
      { prompt_tokens := 5, completion_tokens := 1, total_tokens := 6 } e1
  · exact h2.2.2.2.2 (by decide)
      { prompt_tokens := 5, completion_tokens := demoTok "hi" demoChatClient.model,
        total_tokens := 5 + demoTok "hi" demoChatClient.model } e2

theorem respReasoningStep_ttft (st : StreamState) (j : JValue) (t : ℚ) :
    (respReasoningStep st j t).ttft = st.ttft := by
  unfold respReasoningStep
  cases pyOrStr (jGet j "delta") (jGet j "text")
  · rfl
  · dsimp only
    split
    · rfl
    · rfl

theorem respCompletedStep_ttft (st : StreamState) (j : JValue) :
    (respCompletedStep st j).ttft = st.ttft := by
  unfold respCompletedStep
  dsimp only
  split
  · rfl
  · rfl

theorem chatUsageStep_ttft (st : StreamState) (j : JValue) :
    (chatUsageStep st j).ttft = st.ttft := by
  unfold chatUsageStep
  split
  · rfl
  · rfl

theorem respContentStep_ttft (st : StreamState) (j : JValue) (t : ℚ) :
    (respContentStep st j t).ttft =
      if jStrD j "delta" "" ≠ "" ∧ st.ttft.isNone then some t else st.ttft := by
  unfold respContentStep
  by_cases h : jStrD j "delta" "" ≠ ""
  · by_cases hn : st.ttft.isNone <;> simp [h, hn]
  · simp [h]

theorem chatContentStep_ttft (st : StreamState) (j : JValue) (t : ℚ) :
    (chatContentStep st j t).ttft =
      if eventContentFragment false j ≠ "" ∧ st.ttft.isNone then some t else st.ttft := by
  unfold chatContentStep eventContentFragment
  rcases jGet j "choices" with _ | jv
  · simp
  · rcases jv with _ | b | n | s | items | fields
    · simp
    · simp
    · simp
    · simp
    · rcases items with _ | ⟨c0, rest⟩
      · simp
      · by_cases h : deltaContentOf c0 ≠ ""
        · by_cases hn : st.ttft.isNone <;> simp [h, hn]
        · simp [h]
    · simp

theorem processEvent_ttft (isResp : Bool) (st : StreamState) (j : JValue) (t : ℚ) :
    (processEvent isResp st j t).ttft =
      if eventContentFragment isResp j ≠ "" ∧ st.ttft.isNone then some t else st.ttft := by
  cases isResp
  · simp only [processEvent, Bool.false_eq_true, if_false]
    rw [chatUsageStep_ttft, chatContentStep_ttft]
  · simp only [processEvent, eventContentFragment, if_true]
    by_cases h1 : jStrD j "type" "" = "response.output_text.delta"
    · simp only [h1, if_true]
      rw [respContentStep_ttft]
    · by_cases h2 : jStrD j "type" "" = "response.reasoning_text.delta" ∨
        jStrD j "type" "" = "response.reasoning.delta"
      · simp [h1, h2, respReasoningStep_ttft]
      · by_cases h3 : jStrD j "type" "" = "response.completed"
        · simp [h1, h2, h3, respCompletedStep_ttft]
        · simp [h1, h2, h3]

theorem processStreamLines_ttft_frozen (isResp : Bool) :
    ∀ (lines : List (RawLine × ℚ)) (st : StreamState) (v : ℚ),
      st.ttft = some v → (processStreamLines isResp st lines).ttft = some v := by
  intro lines
  induction lines with
  | nil => intro st v h; exact h
  | cons line rest ih =>
    obtain ⟨l, t⟩ := line
    intro st v h
    cases l
    case empty => exact ih st v h
    case noData s => exact ih st v h
    case done => exact h
    case malformed => exact ih st v h
    case event j =>
      apply ih
      rw [processEvent_ttft]
      have hn : st.ttft.isNone = false := by rw [h]; rfl
      simp [hn, h]

theorem processStreamLines_ttft_none (isResp : Bool) :
    ∀ (lines : List (RawLine × ℚ)) (st : StreamState),
      st.ttft = none →
      (processStreamLines isResp st lines).ttft = firstContentTime isResp lines := by
  intro lines
  induction lines with
  | nil => intro st h; exact h
  | cons line rest ih =>
    obtain ⟨l, t⟩ := line
    intro st h
    cases l
    case empty => exact ih st h
    case noData s => exact ih st h
    case done => exact h
    case malformed => exact ih st h
    case event j =>
      by_cases hfrag : eventContentFragment isResp j ≠ ""
      · have hpe : (processEvent isResp st j t).ttft = some t := by
          rw [processEvent_ttft]
          have hn : st.ttft.isNone = true := by rw [h]; rfl
          simp [hfrag, hn]
        show (processStreamLines isResp (processEvent isResp st j t) rest).ttft
          = firstContentTime isResp ((.event j, t) :: rest)
        rw [processStreamLines_ttft_frozen isResp rest (processEvent isResp st j t) t hpe]
        simp [firstContentTime, hfrag]
      · have hpe : (processEvent isResp st j t).ttft = none := by
          rw [processEvent_ttft]
          simp [hfrag, h]
        show (processStreamLines isResp (processEvent isResp st j t) rest).ttft
          = firstContentTime isResp ((.event j, t) :: rest)
        rw [ih (processEvent isResp st j t) hpe]
        simp [firstContentTime, hfrag]

/-- C1: on the scenario stream (responses-style deltas "a" then "b", a
completion event with output_tokens 2, then [DONE]) the loop does accumulate
content "ab", a ttft of 10 ms, no ttfr and completion count 2 - but the call
as a whole returns a failure Result with no content, no timing and no token
record, because the success path passes the unsupported ttfr_ms keyword to
metrics.TimingMetrics, whose TypeError the blanket handler converts into a
generic failure.  The claimed success Result is therefore never produced. -/
theorem stream_scenario_defect :
    (processStreamLines true {} demoRespLines).chunks = ["a", "b"] ∧
    (processStreamLines true {} demoRespLines).ttft = some 10 ∧
    (processStreamLines true {} demoRespLines).ttfr = none ∧
    (processStreamLines true {} demoRespLines).completion_tokens = 2 ∧
    demoRespClient.is_responses_api = true ∧
    (call_api_stream demoTok demoRespClient (.httpResponse 200 demoRespLines) 50).success
      = false ∧
    (call_api_stream demoTok demoRespClient (.httpResponse 200 demoRespLines) 50).content
      = none ∧
    (call_api_stream demoTok demoRespClient (.httpResponse 200 demoRespLines) 50).timing
      = none ∧
    (call_api_stream demoTok demoRespClient (.httpResponse 200 demoRespLines) 50).tokens
      = none ∧
    (call_api_stream demoTok demoRespClient (.httpResponse 200 demoRespLines) 50).error_message
      = some ttfrKeywordErrorMessage := by
  exact ⟨rfl, rfl, rfl, rfl, rfl, rfl, rfl, rfl, rfl, rfl⟩

/-- C8 counterexample: on a stream that delivers zero content fragments
before [DONE], the streaming call does not return a Timing at all - it
returns a failure Result with timing None - so the claim's returned Timing
with ttft absent never materializes. -/
theorem stream_ttft_counterexample :
    (call_api_stream demoTok demoRespClient (.httpResponse 200 [(.done, 5)]) 9).success
      = false ∧
    (call_api_stream demoTok demoRespClient (.httpResponse 200 [(.done, 5)]) 9).timing
      = none ∧
    (call_api_stream demoTok demoRespClient (.httpResponse 200 [(.done, 5)]) 9).error_message
      = some ttfrKeywordErrorMessage := by
  exact ⟨rfl, rfl, rfl⟩

/-- C8 (amended): during the stream loop, ttft is assigned the elapsed time
of the first non-empty content fragment and is never reassigned by any later
event (an already-set ttft survives every remaining line); starting unset,
the loop's final ttft is exactly that first-fragment time, hence unset when
zero non-empty fragments arrive before [DONE].  The call itself, however,
returns a failure Result with no Timing record on every 200-status stream,
because the TimingMetrics constructor rejects the ttfr_ms keyword. -/
theorem stream_ttft_amended (isResp : Bool) :
    (∀ (st : StreamState) (lines : List (RawLine × ℚ)) (v : ℚ),
      st.ttft = some v → (processStreamLines isResp st lines).ttft = some v) ∧
    (∀ lines : List (RawLine × ℚ),
      (processStreamLines isResp {} lines).ttft = firstContentTime isResp lines) ∧
    (∀ (tok : String → String → Int) (c : LLMClient) (lines : List (RawLine × ℚ))
        (latency : ℚ),
      (call_api_stream tok c (.httpResponse 200 lines) latency).success = false ∧
      (call_api_stream tok c (.httpResponse 200 lines) latency).timing = none) := by
  refine ⟨fun st lines v h => processStreamLines_ttft_frozen isResp lines st v h,
    fun lines => processStreamLines_ttft_none isResp lines {} rfl,
    fun tok c lines latency => ⟨rfl, rfl⟩⟩

/-- C8 witness: an already-set ttft of 7 survives the whole scenario stream;
from the unset state the loop's ttft equals the first-fragment time, which on
the scenario stream is 10 ms, and on a [DONE]-only stream is absent; and on
the scenario stream the call returns no Timing. -/
theorem stream_ttft_amended_witness :
    (processStreamLines true { ttft := some 7 } demoRespLines).ttft = some 7 ∧
    (processStreamLines true {} demoRespLines).ttft = firstContentTime true demoRespLines ∧
    firstContentTime true demoRespLines = some 10 ∧
    (processStreamLines true {} [(.done, 5)]).ttft = firstContentTime true [(.done, 5)] ∧
    firstContentTime true [(.done, 5)] = none ∧
    (call_api_stream demoTok demoRespClient (.httpResponse 200 demoRespLines) 50).timing
      = none := by
  refine ⟨(stream_ttft_amended true).1 { ttft := some 7 } demoRespLines 7 rfl,
    (stream_ttft_amended true).2.1 demoRespLines, rfl,
    (stream_ttft_amended true).2.1 [(.done, 5)], rfl,
    ((stream_ttft_amended true).2.2 demoTok demoRespClient demoRespLines 50).2⟩

/-- C10 counterexample: on a stream whose single content fragment arrives at
elapsed time exactly 0 ms the loop records ttft = 0, but call_api_stream
returns no Timing at all (failure with timing None), so no returned Timing
exists in which the zero ttft could have been replaced by None. -/
theorem zero_ttft_counterexample :
    (processStreamLines true {} demoZeroTtftLines).ttft = some 0 ∧
    (call_api_stream demoTok demoRespClient (.httpResponse 200 demoZeroTtftLines) 9).timing
      = none ∧
    (call_api_stream demoTok demoRespClient (.httpResponse 200 demoZeroTtftLines) 9).success
      = false := by
  exact ⟨rfl, rfl, rfl⟩

/-- C10 (amended): the Timing expression the streaming success path attempts
to build (lines 357-361) maps a ttft or ttfr of exactly 0.0 to None and any
non-zero ttft to its rounded value - though the built record is never
returned, the constructor call failing on the ttfr_ms keyword; and
run_single_test stores a computed tps of exactly 0.0 as None in the
TestResult, which excludes that result from the tps sample set during batch
summarization. -/
theorem zero_is_absent_amended :
    (∀ (total : ℚ) (ttfr : Option ℚ),
      (attemptedStreamTiming total (some 0) ttfr).ttft_ms = none) ∧
    (∀ (total : ℚ) (ttft : Option ℚ),
      (attemptedStreamTiming total ttft (some 0)).ttfr_ms = none) ∧
    (∀ (total t : ℚ) (ttfr : Option ℚ), t ≠ 0 →
      (attemptedStreamTiming total (some t) ttfr).ttft_ms = some (round2 t)) ∧
    (∀ (prompt : String) (resp : LLMResponse) (tk : TokenMetrics) (tm : TimingMetrics),
      resp.success = true → resp.tokens = some tk → resp.timing = some tm →
      calculate_tps tk.completion_tokens tm.total_latency_ms = 0 →
      (run_single_test prompt resp).tps = none) ∧
    (∀ (rs₁ rs₂ : List TestResult) (r : TestResult), r.tps = none →
      tpsSamples (rs₁ ++ r :: rs₂) = tpsSamples (rs₁ ++ rs₂)) := by
  refine ⟨?_, ?_, ?_, ?_, ?_⟩
  · intro total ttfr
    simp [attemptedStreamTiming]
  · intro total ttft
    simp [attemptedStreamTiming]
  · intro total t ttfr h
    simp [attemptedStreamTiming, h]
  · intro prompt resp tk tm hs htk htm htps
    simp only [run_single_test, hs, if_true, htk, htm]
    simp [htps]
  · intro rs₁ rs₂ r hr
    unfold tpsSamples successfulResults
    rw [List.filter_append, List.filter_append, List.filterMap_append,
      List.filterMap_append]
    by_cases hs : r.status == "success"
    · simp [List.filter_cons, hs, List.filterMap_cons, hr]
    · simp [List.filter_cons, hs]

/-- C10 witness: a zero ttft and a zero ttfr are dropped from the attempted
Timing while a non-zero ttft is kept rounded; a successful response with zero
completion tokens (tps exactly 0) is stored with tps None; and a result with
tps None contributes nothing to the tps sample set. -/
theorem zero_is_absent_amended_witness :
    (attemptedStreamTiming 5 (some 0) none).ttft_ms = none ∧
    (attemptedStreamTiming 5 none (some 0)).ttfr_ms = none ∧
    (attemptedStreamTiming 5 (some 3) none).ttft_ms = some (round2 3) ∧
    (run_single_test "p" demoZeroTokResponse).tps = none ∧
    tpsSamples ([] ++ demoNoTpsResult :: []) = tpsSamples ([] ++ []) := by
  refine ⟨zero_is_absent_amended.1 5 none, zero_is_absent_amended.2.1 5 none,
    zero_is_absent_amended.2.2.1 5 3 none (by norm_num),
    zero_is_absent_amended.2.2.2.1 "p" demoZeroTokResponse
      { prompt_tokens := 5, completion_tokens := 0, total_tokens := 5 }
      { total_latency_ms := 100 } rfl rfl rfl (by norm_num [calculate_tps]),
    zero_is_absent_amended.2.2.2.2 [] [] demoNoTpsResult rfl⟩

end LLMTest
